import Mathlib

/-!
Shallow embedding of the `create-ticketwebhook` Flask service (`app.py`,
`dialogflow.py`).  The service exposes five HTTP handlers:

* `POST /webhook`              — `webhook` (create a ticket, Dialogflow channel)
* `POST /create`               — `create_ticket` (create a ticket, WhatsApp channel)
* `POST /check_status`         — `check_status` (status lookup, Dialogflow channel)
* `POST /check`                — `check` (status lookup, WhatsApp channel)
* `POST /twilio-dialogflowcx`  — `twilio_dialogflowcx_handler` (chat relay)

External collaborators (BigQuery client, Dialogflow agent, Twilio transport)
are modelled as oracles passed to the handlers: an `InsertOutcome` for the
row insert, a `Bool` for query success, an `Except` value for the agent call,
and a `Nat → Bool` success oracle for the n-th outbound transport send.
Request parameter bags are modelled by `PValue`, the fragment of Python/JSON
values the handlers inspect (strings, dicts, `None`).
-/

namespace CreateTicketWebhook

/-- A Python value living in the webhook parameter bag: a string, a dict
(modelled as an association list), or `None`. -/
inductive PValue where
  | str (s : String)
  | obj (fields : List (String × PValue))
  | nullv
deriving Repr

/-- Python truthiness for the values above: `""`, `{}` and `None` are falsy. -/
def isFalsy : PValue → Bool
  | .str s => s == ""
  | .obj fs => fs.isEmpty
  | .nullv => true

/-- Truthiness of an optional value; a missing key (Python `None` from
`dict.get`) is falsy. -/
def falsyOpt : Option PValue → Bool
  | none => true
  | some v => isFalsy v

/-- `parameters.get(key, default)`: the stored value when the key is present
(even when falsy), otherwise the default. -/
def getD (ps : List (String × PValue)) (k : String) (d : PValue) : PValue :=
  (ps.lookup k).getD d

/-- A single-quote character, written via its code point. -/
def sq : String := String.singleton (Char.ofNat 39)

mutual

/-- Python `repr` of a parameter value, as used when a dict is interpolated
into an f-string. -/
def pyReprV : PValue → String
  | .str s => sq ++ s ++ sq
  | .nullv => "None"
  | .obj fs => "\x7b" ++ pyReprFields fs ++ "\x7d"

/-- `repr` of the comma-separated field list of a Python dict. -/
def pyReprFields : List (String × PValue) → String
  | [] => ""
  | [(k, v)] => sq ++ k ++ sq ++ ": " ++ pyReprV v
  | (k, v) :: rest => sq ++ k ++ sq ++ ": " ++ pyReprV v ++ ", " ++ pyReprFields rest

end

/-- Python `str()` of a parameter value, as used by f-string interpolation:
a string interpolates as itself, `None` as `"None"`, a dict as its `repr`. -/
def pyStr : PValue → String
  | .str s => s
  | .nullv => "None"
  | .obj fs => "\x7b" ++ pyReprFields fs ++ "\x7d"

/-- f-string interpolation of an `Optional[str]` (`os.getenv` result). -/
def pyFmtOpt : Option String → String
  | some s => s
  | none => "None"

/-- The module-level BigQuery configuration of `app.py`. -/
structure Config where
  projectId : Option String
  datasetId : Option String
  tableId : Option String
  tableIdWa : Option String

/-- `app.py` lines 29–37: the configuration block is written twice.  The
second block re-reads `PROJECT_ID` and `BIGQUERY_DATASET_ID` and then
reassigns `BIGQUERY_TABLE_ID` from the environment variable
`BIGQUERY_TABLE_ID_WA`, overwriting the value read from `BIGQUERY_TABLE_ID`
by the first block.  The `let` shadowing below mirrors the sequential
reassignments. -/
def loadConfig (env : String → Option String) : Config :=
  let projectId := env "PROJECT_ID"
  let datasetId := env "BIGQUERY_DATASET_ID"
  let tableId := env "BIGQUERY_TABLE_ID"
  let tableIdWa := env "BIGQUERY_TABLE_ID_WA"
  let projectId := env "PROJECT_ID"
  let datasetId := env "BIGQUERY_DATASET_ID"
  let tableId := env "BIGQUERY_TABLE_ID_WA"
  { projectId := projectId, datasetId := datasetId,
    tableId := tableId, tableIdWa := tableIdWa }

/-- `f"{BIGQUERY_PROJECT_ID}.{BIGQUERY_DATASET_ID}.{table}"`. -/
def fqTableId (proj ds tbl : Option String) : String :=
  pyFmtOpt proj ++ "." ++ pyFmtOpt ds ++ "." ++ pyFmtOpt tbl

/-- The fully-qualified table targeted by `POST /webhook` (`app.py` line 112). -/
def webhookTableId (c : Config) : String :=
  fqTableId c.projectId c.datasetId c.tableId

/-- The fully-qualified table targeted by `POST /create` (`app.py` line 227). -/
def createTableId (c : Config) : String :=
  fqTableId c.projectId c.datasetId c.tableIdWa

/-- `str(uuid.uuid4())[:8]` at `app.py` line 88 (`POST /webhook`), as a
function of the rendered UUID string (36 characters). -/
def webhookTicketId (u : String) : String := u.take 8

/-- `str(uuid.uuid4())[:8]` at `app.py` line 178 (`POST /create`). -/
def createTicketId (u : String) : String := u.take 8

/-- A 36-character rendered UUID, used as a concrete sample input. -/
def sampleUuid : String := "123e4567-e89b-12d3-a456-426614174000"

/-- A concrete environment in which the two table environment variables hold
distinct names. -/
def envEx : String → Option String := fun k =>
  if k = "PROJECT_ID" then some "demo-project"
  else if k = "BIGQUERY_DATASET_ID" then some "support"
  else if k = "BIGQUERY_TABLE_ID" then some "tickets"
  else if k = "BIGQUERY_TABLE_ID_WA" then some "tickets_wa"
  else none

/-- The row dict inserted into BigQuery.  `phone_number` is `none` for rows
built by `POST /webhook` (that handler builds a dict without the key) and `some _`
for rows built by `POST /create`. -/
structure TicketRow where
  ticket_id : String
  created_at : String
  issue : PValue
  status : String
  name : PValue
  phone_number : Option PValue
  email_address : PValue
  ticket_history_file : String
deriving Repr

/-- Outcome of `bq_client.insert_rows_json`: an empty error list, a non-empty
per-row error list, or a raised exception. -/
inductive InsertOutcome where
  | success
  | rowErrors
  | raised
deriving Repr, DecidableEq

/-- Observable result of a ticket-creation handler: HTTP status, the
`fulfillmentResponse` text messages, the echoed `sessionInfo.parameters`,
the `{"error": ...}` body when one is returned instead, and the row the
handler durably inserted (with its fully-qualified table), if any. -/
structure TicketResult where
  httpStatus : Nat
  messages : List String
  sessionParams : List (String × PValue)
  errorBody : Option String
  inserted : Option (String × TicketRow)
deriving Repr

/-- `app.py` line 94: `parameters.get(name-key, empty-dict).get(name-key, the sentinel)`.
When the `name` key is absent the empty-dict default yields the sentinel N/A; when it holds
a dict the inner `name` key is read; any other value (a plain string, `None`)
has no `.get` attribute and raises `AttributeError`. -/
def getNameW (ps : List (String × PValue)) : Except Unit PValue :=
  match ps.lookup "name" with
  | none => .ok (.str "N/A")
  | some (.obj fs) => .ok (getD fs "name" (.str "N/A"))
  | some _ => .error ()

/-- The row dict built by `POST /webhook` (`app.py` lines 99–107), given the
already-extracted `name` value. -/
def webhookRow (u ts : String) (ps : List (String × PValue)) (nameV : PValue) :
    TicketRow :=
  { ticket_id := webhookTicketId u
    created_at := ts
    issue := getD ps "issue" (.str "N/A")
    status := "Open"
    name := nameV
    phone_number := none
    email_address := getD ps "email" (.str "N/A")
    ticket_history_file := "" }

/-- The confirmation text of `POST /webhook` (`app.py` lines 133–139). -/
def webhookSummary (tid : String) (nameV email issue : PValue) : String :=
  "Ticket Summary:\n \n" ++
  "Ticket ID: **" ++ tid ++ "** \n" ++
  "Name: **" ++ pyStr nameV ++ "** \n" ++
  "Email address: **" ++ pyStr email ++ "** \n" ++
  "Issue: **" ++ pyStr issue ++ "** \n \n" ++
  "Your ticket has been created. A confirmation email has been sent. \n"

/-- The generic catch-all payload of the create handlers
(`app.py` lines 155–165 and 272–282). -/
def genericErrorResult : TicketResult :=
  { httpStatus := 500
    messages := ["An error occurred while processing your request"]
    sessionParams := []
    errorBody := none
    inserted := none }

/-- The `{"error": msg}` / HTTP 500 results of the insertion branch. -/
def dbErrorResult (msg : String) : TicketResult :=
  { httpStatus := 500, messages := [], sessionParams := [],
    errorBody := some msg, inserted := none }

/-- `POST /webhook` (`app.py` lines 77–165).  `bqAvailable` models whether
the module-level BigQuery client initialized; `ins` is the insert outcome;
`u` is the rendered UUID and `ts` the rendered UTC timestamp; `ps` is
the nested `sessionInfo.parameters` bag of the request JSON. -/
def webhook (c : Config) (bqAvailable : Bool) (ins : InsertOutcome)
    (u ts : String) (ps : List (String × PValue)) : TicketResult :=
  let tid := webhookTicketId u
  let email := getD ps "email" (.str "N/A")
  let issue := getD ps "issue" (.str "N/A")
  match getNameW ps with
  | .error _ => genericErrorResult
  | .ok nameV =>
    let row := webhookRow u ts ps nameV
    if bqAvailable then
      match ins with
      | .success =>
        { httpStatus := 200
          messages := [webhookSummary tid nameV email issue]
          sessionParams :=
            [("ticket_id", .str tid), ("status", .str "Open"),
             ("email_address", email)]
          errorBody := none
          inserted := some (webhookTableId c, row) }
      | .rowErrors => dbErrorResult "Database insertion failed"
      | .raised => dbErrorResult "Database error"
    else dbErrorResult "Server configuration error"

/-- `app.py` lines 182–184: `Email` first; when that is falsy (absent, empty,
`None`) fall back to `email` with default N/A. -/
def createEmail (ps : List (String × PValue)) : PValue :=
  let e := ps.lookup "Email"
  if falsyOpt e then getD ps "email" (.str "N/A") else e.getD (.str "N/A")

/-- `app.py` lines 186–188: `Issue` first, then `issue` with default N/A. -/
def createIssue (ps : List (String × PValue)) : PValue :=
  let i := ps.lookup "Issue"
  if falsyOpt i then getD ps "issue" (.str "N/A") else i.getD (.str "N/A")

/-- `app.py` lines 190–204: probe `Name` as dict-or-string, then `name` as
dict-or-string, defaulting to N/A. -/
def createName (ps : List (String × PValue)) : PValue :=
  match ps.lookup "Name" with
  | some (.obj fs) => getD fs "name" (.str "N/A")
  | some (.str s) => .str s
  | _ =>
    match ps.lookup "name" with
    | some (.obj fs) => getD fs "name" (.str "N/A")
    | some (.str s) => .str s
    | _ => .str "N/A"

/-- `app.py` lines 206–208: `phone` with default N/A; only when that
value is falsy (which the default never is) fall back to `Phone`. -/
def createPhone (ps : List (String × PValue)) : PValue :=
  let p := getD ps "phone" (.str "N/A")
  if isFalsy p then getD ps "Phone" (.str "N/A") else p

/-- The row dict built by `POST /create` (`app.py` lines 213–222). -/
def createRow (u ts : String) (ps : List (String × PValue)) : TicketRow :=
  { ticket_id := createTicketId u
    created_at := ts
    issue := createIssue ps
    status := "Open"
    name := createName ps
    phone_number := some (createPhone ps)
    email_address := createEmail ps
    ticket_history_file := "" }

/-- The confirmation text of `POST /create` (`app.py` lines 248–254). -/
def createSummary (tid : String) (nameV phone email issue : PValue) : String :=
  "Ticket Summary:\n \n" ++
  "Ticket ID: *" ++ tid ++ "* \n" ++
  "Name: *" ++ pyStr nameV ++ "* \n" ++
  "Phone Number: *" ++ pyStr phone ++ "* \n" ++
  "Email address: *" ++ pyStr email ++ "* \n" ++
  "Issue: *" ++ pyStr issue ++ "* \n \n" ++
  "Your ticket has been created. A confirmation email has been sent. \n"

/-- `POST /create` (`app.py` lines 167–282).  Field extraction never raises
here (every probe uses `dict.get` or an `isinstance` chain), so the catch-all
is unreachable for the modelled inputs. -/
def create_ticket (c : Config) (bqAvailable : Bool) (ins : InsertOutcome)
    (u ts : String) (ps : List (String × PValue)) : TicketResult :=
  let tid := createTicketId u
  let email := createEmail ps
  let issue := createIssue ps
  let nameV := createName ps
  let phone := createPhone ps
  let row := createRow u ts ps
  if bqAvailable then
    match ins with
    | .success =>
      { httpStatus := 200
        messages := [createSummary tid nameV phone email issue]
        sessionParams :=
          [("ticket_id", .str tid), ("status", .str "Open"),
           ("email_address", email), ("phone_number", phone)]
        errorBody := none
        inserted := some (createTableId c, row) }
    | .rowErrors => dbErrorResult "Database insertion failed"
    | .raised => dbErrorResult "Database error"
  else dbErrorResult "Server configuration error"

/-- Observable result of a status-check handler.  The handler only ever runs
a `SELECT`, so it hands the store back; `newStore` records the table contents
after the request. -/
structure CheckResult where
  httpStatus : Nat
  messages : List String
  sessionParams : List (String × PValue)
  errorBody : Option String
  newStore : List TicketRow
deriving Repr

/-- The `WHERE ticket_id = @ticket_id` predicate.  The query parameter is
declared `STRING`; only a string value can match a row. -/
def rowMatches (tid : PValue) (r : TicketRow) : Bool :=
  match tid with
  | .str s => r.ticket_id == s
  | _ => false

/-- The found-ticket message of `POST /check_status`
(`app.py` lines 324–330). -/
def checkStatusFoundMsg (tid : PValue) (r : TicketRow) : String :=
  "Ticket Status:\n\n" ++
  "Ticket ID: **" ++ pyStr tid ++ "**\n" ++
  "Created At: **" ++ r.created_at ++ "**\n" ++
  "Issue: **" ++ pyStr r.issue ++ "**\n" ++
  "Status: **" ++ r.status ++ "**\n"

/-- `POST /check_status` (`app.py` lines 284–365).  `store` is the content of
the queried table; `queryOk` models whether the BigQuery query raised. -/
def check_status (bqAvailable queryOk : Bool) (store : List TicketRow)
    (ps : List (String × PValue)) : CheckResult :=
  let tid := getD ps "ticket_id" (.str "N/A")
  if !bqAvailable then
    { httpStatus := 500, messages := [], sessionParams := [],
      errorBody := some "Server configuration error", newStore := store }
  else if !queryOk then
    { httpStatus := 500, messages := [], sessionParams := [],
      errorBody := some "Database error", newStore := store }
  else
    let results := store.filter (rowMatches tid)
    let (msg, status) :=
      match results with
      | [] => ("No ticket found with the provided ID.", "Not Found")
      | r :: _ => (checkStatusFoundMsg tid r, r.status)
    { httpStatus := 200
      messages := [msg]
      sessionParams := [("ticketid", tid), ("status", .str status)]
      errorBody := none
      newStore := store }

/-- `app.py` lines 378–382: probe `ticketid`, then `ticket_id`, then
`TicketID` with default N/A; each fallback fires when the previous
value is falsy. -/
def checkTid (ps : List (String × PValue)) : PValue :=
  let t1 := ps.lookup "ticketid"
  if falsyOpt t1 then
    let t2 := ps.lookup "ticket_id"
    if falsyOpt t2 then getD ps "TicketID" (.str "N/A")
    else t2.getD (.str "N/A")
  else t1.getD (.str "N/A")

/-- The found-ticket message of `POST /check` (`app.py` lines 414–419). -/
def checkFoundMsg (tid : PValue) (r : TicketRow) : String :=
  "Ticket ID: *" ++ pyStr tid ++ "*\n" ++
  "Created At: *" ++ r.created_at ++ "*\n" ++
  "Issue: *" ++ pyStr r.issue ++ "*\n" ++
  "Status: *" ++ r.status ++ "*\n"

/-- `POST /check` (`app.py` lines 367–454), the WhatsApp-channel status
lookup: same flow as `check_status`, with the key-probing `checkTid`, the
WA table, and single-asterisk formatting. -/
def check (bqAvailable queryOk : Bool) (store : List TicketRow)
    (ps : List (String × PValue)) : CheckResult :=
  let tid := checkTid ps
  if !bqAvailable then
    { httpStatus := 500, messages := [], sessionParams := [],
      errorBody := some "Server configuration error", newStore := store }
  else if !queryOk then
    { httpStatus := 500, messages := [], sessionParams := [],
      errorBody := some "Database error", newStore := store }
  else
    let results := store.filter (rowMatches tid)
    let (msg, status) :=
      match results with
      | [] => ("No ticket found with the provided ID.", "Not Found")
      | r :: _ => (checkFoundMsg tid r, r.status)
    { httpStatus := 200
      messages := [msg]
      sessionParams := [("ticketid", tid), ("status", .str status)]
      errorBody := none
      newStore := store }

/-- One Dialogflow CX response message as inspected by the relay loop:
`text` is `none` when the message carries no (or an empty) text payload,
otherwise the `text.text` fragment list. -/
structure DFMessage where
  text : Option (List String)
deriving Repr

/-- A response message carrying the single fragment `s`. -/
def dfMsg (s : String) : DFMessage := { text := some [s] }

/-- Observable result of the relay handler: HTTP status, response body, the
outbound transport sends attempted in order (body text paired with the
success of that attempt), and whether the agent was called at all. -/
structure RelayResult where
  httpStatus : Nat
  body : String
  sends : List (String × Bool)
  agentCalled : Bool
deriving Repr

/-- A form field is falsy when absent (`form.get` returns `None`) or empty. -/
def falsyField : Option String → Bool
  | none => true
  | some s => s == ""

/-- `app.py` lines 471–474: the missing-field names, collected in the fixed
order `Body`, `From`, `To`. -/
def missingFormFields (bodyF fromF toF : Option String) : List String :=
  (if falsyField bodyF then ["Body"] else []) ++
  (if falsyField fromF then ["From"] else []) ++
  (if falsyField toF then ["To"] else [])

/-- Python `not text.strip()`: true exactly when every character is
whitespace. -/
def stripIsEmpty (s : String) : Bool := s.data.all Char.isWhitespace

/-- The bodies the relay loop (`app.py` lines 549–573) attempts to send:
for each message with a non-empty text list, the first fragment, skipped
when it strips to the empty string. -/
def relayAttempts (msgs : List DFMessage) : List String :=
  msgs.filterMap fun m =>
    match m.text with
    | some (t :: _) => if stripIsEmpty t then none else some t
    | _ => none

/-- The generic apology sent when the Dialogflow call raises
(`app.py` line 520). -/
def apologyMsg : String := "Sorry, I encountered an error. Please try again later."

/-- The fixed reply for an empty Dialogflow response (`app.py` line 536). -/
def rephraseMsg : String :=
  "I" ++ sq ++ "m not sure how to respond to that. Can you try rephrasing?"

/-- `POST /twilio-dialogflowcx` (`app.py` lines 456–584).  `sid`/`tok` are
the Twilio credentials from the environment, `clientInitOk` models the
`Client(...)` constructor, `agentResult` the `DialogFlowReply` construction
plus `send_request` call (an exception anywhere in that block lands in the
except-branch), and `sendOk n` the outcome of the n-th
`twilio_client.messages.create` attempt (an exception is caught where the
send is attempted). -/
def twilio_dialogflowcx_handler (sid tok : Option String) (clientInitOk : Bool)
    (agentResult : Except Unit (List DFMessage)) (sendOk : Nat → Bool)
    (bodyF fromF toF : Option String) : RelayResult :=
  if falsyField bodyF || falsyField fromF || falsyField toF then
    { httpStatus := 400
      body := "Missing required form fields: " ++
        String.intercalate ", " (missingFormFields bodyF fromF toF)
      sends := []
      agentCalled := false }
  else if falsyField sid || falsyField tok then
    { httpStatus := 500, body := "Twilio service not configured.",
      sends := [], agentCalled := false }
  else if !clientInitOk then
    { httpStatus := 500, body := "Failed to initialize Twilio service.",
      sends := [], agentCalled := false }
  else
    match agentResult with
    | .error _ =>
      { httpStatus := 500
        body := "Error communicating with Dialogflow."
        sends := [(apologyMsg, sendOk 0)]
        agentCalled := true }
    | .ok responses =>
      if responses.isEmpty then
        { httpStatus := 200
          body := "No message content from Dialogflow."
          sends := [(rephraseMsg, sendOk 0)]
          agentCalled := true }
      else
        let attempts := relayAttempts responses
        let sends := attempts.enum.map fun p => (p.2, sendOk p.1)
        let sentCount := (sends.filter (·.2)).length
        if sentCount > 0 then
          { httpStatus := 200, body := "", sends := sends, agentCalled := true }
        else
          { httpStatus := 200, body := "No messages were sent.",
            sends := sends, agentCalled := true }

/-- The configuration loaded from the sample environment. -/
def cfgEx : Config := loadConfig envEx

/-- A concrete rendered UTC timestamp. -/
def tsEx : String := "2025-01-01T00:00:00"

/-- The parameter bag of the spec example: email and issue given, no name. -/
def pEx : List (String × PValue) :=
  [("email", .str "a@b.com"), ("issue", .str "login fails")]

/-- A parameter bag with only the capitalized `Phone` key. -/
def c4Params : List (String × PValue) := [("Phone", .str "+628123456789")]

/-- Projecting the attempted bodies out of the send/outcome pairs recovers
exactly the attempt list, whatever the per-send outcomes were. -/
theorem sends_map_fst_eq (l : List String) (g : Nat → Bool) :
    ((l.enum.map fun p => (p.2, g p.1)).map Prod.fst) = l := by
  rw [List.map_map]
  have h : (Prod.fst ∘ fun p : Nat × String => (p.2, g p.1)) = Prod.snd := rfl
  rw [h, List.enum_map_snd]

/-- C2 counterexample: on a 36-character UUID string, the ticket ids of the
two create endpoints are BOTH 8 characters long; neither endpoint keeps the
full-length identifier, so the claimed 8-versus-full-length split is false. -/
theorem c2_cex_both_endpoints_truncate_to_eight :
    sampleUuid.length = 36
    ∧ (webhookTicketId sampleUuid).length = 8
    ∧ (createTicketId sampleUuid).length = 8
    ∧ ¬ (webhookTicketId sampleUuid).length = 36
    ∧ ¬ (createTicketId sampleUuid).length = 36 := by
  refine ⟨by decide, by decide, by decide, by decide, by decide⟩

/-- C2 (amended): for every create request, both endpoints generate the
ticket id the same way — the first 8 characters of the rendered UUID — so
the id is present, non-empty, 8 characters long, and the two endpoints ARE
interchangeable in id format. -/
theorem c2_ticket_id_eight_chars_both_endpoints (u : String)
    (h : u.length = 36) :
    webhookTicketId u = createTicketId u
    ∧ (webhookTicketId u).length = 8
    ∧ (createTicketId u).length = 8
    ∧ webhookTicketId u ≠ "" := by
  have hlen : (u.take 8).length = 8 := by
    rw [String.take_eq]
    show (u.data.take 8).length = 8
    rw [List.length_take]
    have h2 : u.data.length = 36 := h
    omega
  refine ⟨rfl, hlen, hlen, ?_⟩
  intro h2
  have h3 := congrArg String.length h2
  rw [show (webhookTicketId u).length = (u.take 8).length from rfl, hlen] at h3
  exact absurd h3 (by decide)

/-- C2 witness: the amended statement at the concrete sample UUID. -/
theorem c2_witness :
    sampleUuid.length = 36
    ∧ (webhookTicketId sampleUuid = createTicketId sampleUuid
       ∧ (webhookTicketId sampleUuid).length = 8
       ∧ (createTicketId sampleUuid).length = 8
       ∧ webhookTicketId sampleUuid ≠ "") :=
  ⟨by decide, c2_ticket_id_eight_chars_both_endpoints sampleUuid (by decide)⟩

/-- C3: because line 37 of `app.py` reassigns `BIGQUERY_TABLE_ID` from the
environment variable `BIGQUERY_TABLE_ID_WA`, the insert of `POST /webhook`
and the insert of `POST /create` target the SAME fully-qualified table in
every environment; in the sample environment, where the two environment
variables name distinct tables, both endpoints write to
`demo-project.support.tickets_wa`. -/
theorem c3_both_endpoints_insert_same_table :
    (∀ env : String → Option String,
      webhookTableId (loadConfig env) = createTableId (loadConfig env))
    ∧ webhookTableId cfgEx = "demo-project.support.tickets_wa"
    ∧ createTableId cfgEx = "demo-project.support.tickets_wa"
    ∧ envEx "BIGQUERY_TABLE_ID" = some "tickets"
    ∧ envEx "BIGQUERY_TABLE_ID_WA" = some "tickets_wa" :=
  ⟨fun _ => rfl, by decide, by decide, by decide, by decide⟩

/-- C4: the capitalized `Phone` probe of `POST /create` is unreachable when
the lowercase `phone` key is absent, because the absent key already produced
the truthy default N/A: with parameters carrying only `Phone`, the stored
`phone_number` is the sentinel N/A, not the `Phone` value.  The fallback
fires only when `phone` is present with a falsy value. -/
theorem c4_phone_probe_dead_when_phone_absent :
    createPhone c4Params = .str "N/A"
    ∧ ¬ createPhone c4Params = .str "+628123456789"
    ∧ (createRow sampleUuid tsEx c4Params).phone_number = some (.str "N/A")
    ∧ (create_ticket cfgEx true .success sampleUuid tsEx c4Params).inserted
        = some (createTableId cfgEx, createRow sampleUuid tsEx c4Params)
    ∧ createPhone [("phone", .str ""), ("Phone", .str "+628123456789")]
        = .str "+628123456789" := by
  refine ⟨rfl, ?_, rfl, rfl, rfl⟩
  intro h
  injection h with h2
  exact absurd h2 (by decide)

/-- C1: on any create request (both `POST /webhook` and `POST /create`)
whose name extraction does not raise, the handler responds HTTP 200 with the
ticket-summary payload and durably inserts the built row; every optional
field that is missing from the parameter bag is stored as the sentinel N/A,
every present string field is stored verbatim, and the stored status is
Open. -/
theorem c1_missing_optional_fields_stored_as_na
    (c : Config) (u ts : String) (ps : List (String × PValue)) (nv : PValue)
    (hname : getNameW ps = .ok nv) :
    ((webhook c true .success u ts ps).httpStatus = 200
      ∧ (webhook c true .success u ts ps).inserted
          = some (webhookTableId c, webhookRow u ts ps nv)
      ∧ (webhook c true .success u ts ps).messages
          = [webhookSummary (webhookTicketId u) nv
              (getD ps "email" (.str "N/A")) (getD ps "issue" (.str "N/A"))]
      ∧ (webhookRow u ts ps nv).status = "Open"
      ∧ (ps.lookup "email" = none →
          (webhookRow u ts ps nv).email_address = .str "N/A")
      ∧ (ps.lookup "issue" = none →
          (webhookRow u ts ps nv).issue = .str "N/A")
      ∧ (ps.lookup "name" = none →
          (webhookRow u ts ps nv).name = .str "N/A")
      ∧ (∀ v, ps.lookup "email" = some v →
          (webhookRow u ts ps nv).email_address = v)
      ∧ (∀ v, ps.lookup "issue" = some v →
          (webhookRow u ts ps nv).issue = v))
    ∧ ((create_ticket c true .success u ts ps).httpStatus = 200
      ∧ (create_ticket c true .success u ts ps).inserted
          = some (createTableId c, createRow u ts ps)
      ∧ (createRow u ts ps).status = "Open"
      ∧ (ps.lookup "Email" = none → ps.lookup "email" = none →
          (createRow u ts ps).email_address = .str "N/A")
      ∧ (ps.lookup "Issue" = none → ps.lookup "issue" = none →
          (createRow u ts ps).issue = .str "N/A")
      ∧ (ps.lookup "Name" = none → ps.lookup "name" = none →
          (createRow u ts ps).name = .str "N/A")
      ∧ (ps.lookup "phone" = none → ps.lookup "Phone" = none →
          (createRow u ts ps).phone_number = some (.str "N/A"))) := by
  constructor
  · refine ⟨?_, ?_, ?_, rfl, ?_, ?_, ?_, ?_, ?_⟩
    · simp [webhook, hname]
    · simp [webhook, hname]
    · simp [webhook, hname]
    · intro he; simp [webhookRow, getD, he]
    · intro hi; simp [webhookRow, getD, hi]
    · intro hn
      have : nv = .str "N/A" := by
        rw [getNameW, hn] at hname
        exact (Except.ok.inj hname).symm
      simp [webhookRow, this]
    · intro v hv; simp [webhookRow, getD, hv]
    · intro v hv; simp [webhookRow, getD, hv]
  · refine ⟨rfl, rfl, rfl, ?_, ?_, ?_, ?_⟩
    · intro hE he; simp [createRow, createEmail, falsyOpt, getD, hE, he]
    · intro hI hi; simp [createRow, createIssue, falsyOpt, getD, hI, hi]
    · intro hN hn; simp [createRow, createName, hN, hn]
    · intro hp _; simp [createRow, createPhone, getD, isFalsy, hp]

/-- C1 witness: the spec example — email and issue given, no name — stores
name N/A, email verbatim, issue verbatim, status Open, and responds 200 on
both endpoints. -/
theorem c1_witness :
    (webhook cfgEx true .success sampleUuid tsEx pEx).httpStatus = 200
    ∧ (webhook cfgEx true .success sampleUuid tsEx pEx).inserted
        = some (webhookTableId cfgEx, webhookRow sampleUuid tsEx pEx (.str "N/A"))
    ∧ (webhookRow sampleUuid tsEx pEx (.str "N/A")).name = .str "N/A"
    ∧ (webhookRow sampleUuid tsEx pEx (.str "N/A")).email_address = .str "a@b.com"
    ∧ (webhookRow sampleUuid tsEx pEx (.str "N/A")).issue = .str "login fails"
    ∧ (webhookRow sampleUuid tsEx pEx (.str "N/A")).status = "Open"
    ∧ (webhook cfgEx true .success sampleUuid tsEx pEx).messages
        = [webhookSummary "123e4567" (.str "N/A") (.str "a@b.com")
            (.str "login fails")]
    ∧ (create_ticket cfgEx true .success sampleUuid tsEx pEx).httpStatus = 200 := by
  obtain ⟨⟨w1, w2, w3, w4, _, _, w7, w8, w9⟩, k1, _⟩ :=
    c1_missing_optional_fields_stored_as_na cfgEx sampleUuid tsEx pEx
      (.str "N/A") rfl
  exact ⟨w1, w2, w7 rfl, w8 (.str "a@b.com") rfl, w9 (.str "login fails") rfl,
    w4, w3, k1⟩

/-- C10: when the `name` parameter of `POST /webhook` is a plain string, the
handler raises internally (a string has no `.get`), the catch-all converts
that to the generic apology payload with HTTP 500, and nothing is inserted —
whatever the state of the BigQuery client; `POST /create`, by contrast,
accepts the plain-string form and stores it verbatim. -/
theorem c10_webhook_plain_string_name_raises
    (c : Config) (bqA : Bool) (ins : InsertOutcome) (u ts : String)
    (ps : List (String × PValue)) (s : String)
    (h : ps.lookup "name" = some (.str s)) :
    webhook c bqA ins u ts ps = genericErrorResult
    ∧ (webhook c bqA ins u ts ps).httpStatus = 500
    ∧ (webhook c bqA ins u ts ps).messages
        = ["An error occurred while processing your request"]
    ∧ (webhook c bqA ins u ts ps).inserted = none
    ∧ (ps.lookup "Name" = none → (createRow u ts ps).name = .str s) := by
  have hg : getNameW ps = .error () := by rw [getNameW, h]
  refine ⟨by simp [webhook, hg], by simp [webhook, hg, genericErrorResult],
    by simp [webhook, hg, genericErrorResult],
    by simp [webhook, hg, genericErrorResult], ?_⟩
  intro hN
  simp [createRow, createName, h, hN]

/-- C10 witness: the plain-string name Bob at the concrete sample request. -/
theorem c10_witness :
    webhook cfgEx true .success sampleUuid tsEx [("name", .str "Bob")]
      = genericErrorResult
    ∧ (webhook cfgEx true .success sampleUuid tsEx
        [("name", .str "Bob")]).httpStatus = 500
    ∧ (webhook cfgEx true .success sampleUuid tsEx
        [("name", .str "Bob")]).messages
        = ["An error occurred while processing your request"]
    ∧ (webhook cfgEx true .success sampleUuid tsEx
        [("name", .str "Bob")]).inserted = none
    ∧ (createRow sampleUuid tsEx [("name", .str "Bob")]).name = .str "Bob" := by
  obtain ⟨g1, g2, g3, g4, g5⟩ :=
    c10_webhook_plain_string_name_raises cfgEx true .success sampleUuid tsEx
      [("name", .str "Bob")] "Bob" rfl
  exact ⟨g1, g2, g3, g4, g5 rfl⟩

/-- C7: on both status-check endpoints, when the store is available, the
query succeeds, and no row matches the requested ticket id, the reply is the
fixed no-ticket message, the echoed status parameter is Not Found, the HTTP
status is 200, and the store is handed back unchanged. -/
theorem c7_status_check_not_found
    (store : List TicketRow) (ps1 ps2 : List (String × PValue))
    (h1 : store.filter (rowMatches (getD ps1 "ticket_id" (.str "N/A"))) = [])
    (h2 : store.filter (rowMatches (checkTid ps2)) = []) :
    check_status true true store ps1
      = { httpStatus := 200
          messages := ["No ticket found with the provided ID."]
          sessionParams :=
            [("ticketid", getD ps1 "ticket_id" (.str "N/A")),
             ("status", .str "Not Found")]
          errorBody := none
          newStore := store }
    ∧ check true true store ps2
      = { httpStatus := 200
          messages := ["No ticket found with the provided ID."]
          sessionParams :=
            [("ticketid", checkTid ps2), ("status", .str "Not Found")]
          errorBody := none
          newStore := store } := by
  constructor
  · simp [check_status, h1]
  · simp [check, h2]

/-- C7 witness: the not-found reply at a concrete ticket id over an empty
store, on both endpoints. -/
theorem c7_witness :
    check_status true true [] [("ticket_id", .str "deadbeef")]
      = { httpStatus := 200
          messages := ["No ticket found with the provided ID."]
          sessionParams :=
            [("ticketid", .str "deadbeef"), ("status", .str "Not Found")]
          errorBody := none
          newStore := [] }
    ∧ check true true [] [("ticketid", .str "deadbeef")]
      = { httpStatus := 200
          messages := ["No ticket found with the provided ID."]
          sessionParams :=
            [("ticketid", .str "deadbeef"), ("status", .str "Not Found")]
          errorBody := none
          newStore := [] } :=
  c7_status_check_not_found [] [("ticket_id", .str "deadbeef")]
    [("ticketid", .str "deadbeef")] rfl rfl

/-- C5: on a relay request with all three form fields present and valid
transport credentials, when the Dialogflow call raises, the handler attempts
exactly one outbound message — the fixed generic apology — and, with the
transport delivering it, the user receives exactly that one message while
the webhook responds HTTP 500. -/
theorem c5_agent_failure_one_apology_and_500
    (sid tok : Option String) (sendOk : Nat → Bool) (b f t : Option String)
    (hb : falsyField b = false) (hf : falsyField f = false)
    (ht : falsyField t = false) (hs : falsyField sid = false)
    (hk : falsyField tok = false) (hsend : sendOk 0 = true) :
    twilio_dialogflowcx_handler sid tok true (.error ()) sendOk b f t
      = { httpStatus := 500
          body := "Error communicating with Dialogflow."
          sends := [(apologyMsg, true)]
          agentCalled := true } := by
  simp [twilio_dialogflowcx_handler, hb, hf, ht, hs, hk, hsend]

/-- C5 witness: the agent-failure path at concrete credentials and fields. -/
theorem c5_witness :
    twilio_dialogflowcx_handler (some "ACsid") (some "tok") true (.error ())
      (fun _ => true) (some "hi") (some "whatsapp:+123") (some "whatsapp:+456")
      = { httpStatus := 500
          body := "Error communicating with Dialogflow."
          sends := [(apologyMsg, true)]
          agentCalled := true } :=
  c5_agent_failure_one_apology_and_500 (some "ACsid") (some "tok")
    (fun _ => true) (some "hi") (some "whatsapp:+123") (some "whatsapp:+456")
    rfl rfl rfl rfl rfl rfl

/-- C6: on a relay request missing (absent or empty) any subset of the form
fields, the handler responds HTTP 400 with a body naming exactly the missing
fields in the fixed order Body, From, To, makes no agent call, and attempts
no transport send. -/
theorem c6_missing_form_fields_400
    (sid tok : Option String) (ci : Bool)
    (agentResult : Except Unit (List DFMessage)) (sendOk : Nat → Bool)
    (b f t : Option String) (h : missingFormFields b f t ≠ []) :
    twilio_dialogflowcx_handler sid tok ci agentResult sendOk b f t
      = { httpStatus := 400
          body := "Missing required form fields: " ++
            String.intercalate ", " (missingFormFields b f t)
          sends := []
          agentCalled := false } := by
  cases hb : falsyField b <;> cases hf : falsyField f <;>
    cases ht : falsyField t <;>
    simp_all [twilio_dialogflowcx_handler, missingFormFields]

/-- C6 witness: Body absent and From empty are both named, To is not; no
send and no agent call happen. -/
theorem c6_witness :
    twilio_dialogflowcx_handler (some "ACsid") (some "tok") true (.ok [])
      (fun _ => true) none (some "") (some "whatsapp:+456")
      = { httpStatus := 400
          body := "Missing required form fields: Body, From"
          sends := []
          agentCalled := false } :=
  c6_missing_form_fields_400 (some "ACsid") (some "tok") true (.ok [])
    (fun _ => true) none (some "") (some "whatsapp:+456") (by decide)

/-- C8: when the agent reply carries the fragment sequence consisting of the
empty string and then hello, the empty fragment is skipped and exactly one
transport send occurs, carrying hello; the webhook responds 200 with an
empty body. -/
theorem c8_empty_fragment_skipped_one_send
    (sid tok : Option String) (sendOk : Nat → Bool) (b f t : Option String)
    (hb : falsyField b = false) (hf : falsyField f = false)
    (ht : falsyField t = false) (hs : falsyField sid = false)
    (hk : falsyField tok = false) (hsend : sendOk 0 = true) :
    twilio_dialogflowcx_handler sid tok true (.ok [dfMsg "", dfMsg "hello"])
        sendOk b f t
      = { httpStatus := 200
          body := ""
          sends := [("hello", true)]
          agentCalled := true } := by
  have ha : relayAttempts [dfMsg "", dfMsg "hello"] = ["hello"] := by decide
  simp [twilio_dialogflowcx_handler, hb, hf, ht, hs, hk, ha, hsend, dfMsg,
    List.enum, List.enumFrom]

/-- C8 witness: the two-fragment reply at concrete credentials and fields. -/
theorem c8_witness :
    twilio_dialogflowcx_handler (some "ACsid") (some "tok") true
      (.ok [dfMsg "", dfMsg "hello"]) (fun _ => true)
      (some "hi") (some "whatsapp:+123") (some "whatsapp:+456")
      = { httpStatus := 200
          body := ""
          sends := [("hello", true)]
          agentCalled := true } :=
  c8_empty_fragment_skipped_one_send (some "ACsid") (some "tok")
    (fun _ => true) (some "hi") (some "whatsapp:+123") (some "whatsapp:+456")
    rfl rfl rfl rfl rfl rfl

/-- C9: on a relay request whose agent reply is a non-empty message list,
the bodies attempted through the transport are exactly the non-empty
fragments, whatever the per-send outcomes are — a delivery failure on one
fragment never removes a later fragment from the attempt list — and the
handler acknowledges the webhook with HTTP 200. -/
theorem c9_delivery_failure_does_not_abort
    (sid tok : Option String) (sendOk : Nat → Bool) (b f t : Option String)
    (responses : List DFMessage)
    (hb : falsyField b = false) (hf : falsyField f = false)
    (ht : falsyField t = false) (hs : falsyField sid = false)
    (hk : falsyField tok = false) (hne : responses ≠ []) :
    ((twilio_dialogflowcx_handler sid tok true (.ok responses) sendOk
        b f t).sends.map Prod.fst) = relayAttempts responses
    ∧ (twilio_dialogflowcx_handler sid tok true (.ok responses) sendOk
        b f t).httpStatus = 200
    ∧ (twilio_dialogflowcx_handler sid tok true (.ok responses) sendOk
        b f t).agentCalled = true := by
  have hie : responses.isEmpty = false := by
    cases responses with
    | nil => exact absurd rfl hne
    | cons a l => rfl
  have hx : twilio_dialogflowcx_handler sid tok true (.ok responses) sendOk
      b f t
      = { httpStatus := 200
          body :=
            if 0 < (((relayAttempts responses).enum.map
                fun p => (p.2, sendOk p.1)).filter (fun x => x.2)).length
            then "" else "No messages were sent."
          sends := (relayAttempts responses).enum.map
            fun p => (p.2, sendOk p.1)
          agentCalled := true } := by
    simp only [twilio_dialogflowcx_handler, hb, hf, ht, hs, hk, hie]
    norm_num
    split <;> simp
  rw [hx]
  exact ⟨sends_map_fst_eq _ _, rfl, rfl⟩

/-- C9 witness: two fragments where the first send fails and the second
succeeds — both are attempted in order and the webhook still responds 200. -/
theorem c9_witness :
    ((twilio_dialogflowcx_handler (some "ACsid") (some "tok") true
        (.ok [dfMsg "alpha", dfMsg "beta"]) (fun n => n != 0)
        (some "hi") (some "whatsapp:+123") (some "whatsapp:+456")).sends.map
          Prod.fst) = relayAttempts [dfMsg "alpha", dfMsg "beta"]
    ∧ (twilio_dialogflowcx_handler (some "ACsid") (some "tok") true
        (.ok [dfMsg "alpha", dfMsg "beta"]) (fun n => n != 0)
        (some "hi") (some "whatsapp:+123") (some "whatsapp:+456")).httpStatus
        = 200
    ∧ (twilio_dialogflowcx_handler (some "ACsid") (some "tok") true
        (.ok [dfMsg "alpha", dfMsg "beta"]) (fun n => n != 0)
        (some "hi") (some "whatsapp:+123") (some "whatsapp:+456")).sends
        = [("alpha", false), ("beta", true)] := by
  obtain ⟨s1, s2, _⟩ :=
    c9_delivery_failure_does_not_abort (some "ACsid") (some "tok")
      (fun n => n != 0) (some "hi") (some "whatsapp:+123")
      (some "whatsapp:+456") [dfMsg "alpha", dfMsg "beta"]
      rfl rfl rfl rfl rfl (by simp)
  exact ⟨s1, s2, by decide⟩

end CreateTicketWebhook
